import Mathlib

/-!
Shallow embedding of the CloudPredictor orchestration layer from
src/cloud/src/autogluon/cloud/predictor/cloud_predictor.py.

Job handles, the job registry, the accept-type allow-list and a few small
utilities live in modules of the repository that are not part of the sources
here (autogluon.cloud.job, autogluon.cloud.utils, autogluon.common); those are
modelled from the spec and carry a doc comment saying so.  Everything else is
translated directly from cloud_predictor.py.

Conventions of the embedding:
- Python exceptions become values of CloudError inside Except.
- sagemaker sessions are opaque tokens (Nat); region strings travel with them.
- pandas DataFrames are abstracted to their memory footprint in bytes, which is
  the only attribute the orchestrator reads from them.
- filesystem probes (os.path.isfile, tarfile.is_tarfile) are passed in as
  boolean-valued oracles; generated unique names (job names, endpoint names,
  uuid suffixes) are passed in as explicit arguments.
- remote side effects relevant to the claims are recorded as FitEvent traces.
-/

/-- Job status values as reported by the external service
(cloud_predictor.py documents: InProgress, Completed, Failed, Stopping,
Stopped, NotCreated). -/
inductive JobStatus
  | NotCreated
  | InProgress
  | Completed
  | Failed
  | Stopping
  | Stopped
deriving DecidableEq, Repr

/-- Render a job status the way get_fit_job_status / get_batch_transform_job_status
return it (a plain string). -/
def statusString : JobStatus → String
  | .NotCreated => "NotCreated"
  | .InProgress => "InProgress"
  | .Completed => "Completed"
  | .Failed => "Failed"
  | .Stopping => "Stopping"
  | .Stopped => "Stopped"

/-- Errors surfaced by the orchestrator.  Python assert failures become
assertionError (the PreconditionViolation / InvalidArgument taxonomy of the
spec), explicit raise ValueError becomes valueError, and unhandled attribute
access on None becomes attributeError. -/
inductive CloudError
  | assertionError (msg : String)
  | valueError (msg : String)
  | attributeError (msg : String)
deriving DecidableEq, Repr

/-- Modelled from the spec: a SageMaker job handle (SageMakerFitJob /
SageMakerBatchTransformationJob from autogluon.cloud.job, not under src):
name, cloud-side status snapshot, output location, and an external-service
session reference that is not part of the persisted snapshot. -/
structure SageMakerJob where
  job_name : Option String
  status : JobStatus
  out_path : Option String
  session : Option Nat
deriving DecidableEq, Repr

/-- Modelled from the spec: the completed flag of a job handle is whether its
status reached the terminal Completed state. -/
def SageMakerJob.completed (j : SageMakerJob) : Bool :=
  j.status == JobStatus.Completed

/-- Modelled from the spec: get_output_path is valid only once Completed;
otherwise it returns nothing (None). -/
def SageMakerJob.get_output_path (j : SageMakerJob) : Option String :=
  if j.completed then j.out_path else none

/-- Modelled from the spec: status polling on a job handle reports the
cloud-side status as a string. -/
def SageMakerJob.get_job_status (j : SageMakerJob) : String :=
  statusString j.status

/-- A live endpoint handle (AutoGluonRealtimePredictor): endpoint name plus the
session it was constructed with. -/
structure AutoGluonRealtimePredictor where
  endpoint_name : String
  session : Option Nat
deriving DecidableEq, Repr

/-- The full orchestrator state: the attributes cloud_predictor.py stores on
self (role_arn, sagemaker_session, local_output_path, cloud_output_path,
endpoint, _region, _fit_job, _batch_transform_jobs, and the _endpoint_saved
marker used by save/load, with none meaning the attribute is absent or None). -/
structure CloudPredictor where
  role_arn : String
  sagemaker_session : Option Nat
  local_output_path : String
  cloud_output_path : String
  endpoint : Option AutoGluonRealtimePredictor
  region : Option String
  fit_job : SageMakerJob
  batch_transform_jobs : List (String × SageMakerJob)
  endpoint_saved : Option String
deriving DecidableEq, Repr

/-- Python truthiness of an optional string: None and the empty string are
falsy.  Used wherever the source writes "if not x" on a name/path argument. -/
def truthyStr : Option String → Bool
  | none => false
  | some s => s != ""

/-- Modelled from the spec: the job registry (MostRecentInsertedOrderedDict,
not under src) supports most-recently-inserted lookup, returning None when
empty. -/
def registryLast (jobs : List (String × SageMakerJob)) : Option String :=
  (jobs.getLast?).map Prod.fst

/-- Modelled from the spec: dict get with default None; looking up None as a
key finds nothing. -/
def registryGet (jobs : List (String × SageMakerJob)) : Option String → Option SageMakerJob
  | none => none
  | some n => (jobs.find? (fun kv => kv.1 == n)).map Prod.snd

/-- Modelled from the spec: insertion into the registry; a fresh key is
appended at the end (insertion order preserved), an existing key is updated in
place. -/
def registryPut (jobs : List (String × SageMakerJob)) (name : String)
    (job : SageMakerJob) : List (String × SageMakerJob) :=
  if jobs.any (fun kv => kv.1 == name) then
    jobs.map (fun kv => if kv.1 == name then (name, job) else kv)
  else
    jobs ++ [(name, job)]

/-- Modelled from the spec: is_s3_url from autogluon.common (not under src),
recognising remote object-store URIs. -/
def is_s3_url (s : String) : Bool :=
  s.toList.take 5 == "s3://".toList

/-- Split an s3://bucket/key string into bucket and key parts (character-list
based so that concrete runs evaluate). -/
def s3SplitStr (p : String) : String × String :=
  let rest := p.toList.drop 5
  (String.mk (rest.takeWhile (fun c => c != '/')),
   String.mk ((rest.dropWhile (fun c => c != '/')).drop 1))

/-- Modelled from the spec: s3_path_to_bucket_prefix from autogluon.common
(not under src).  It splits the path string; handed None instead of a string
(a missing output location) the attribute access fails as an unhandled error,
there is no None handling. -/
def s3_path_to_bucket_key : Option String → Except CloudError (String × String)
  | none => .error (.attributeError "NoneType object has no attribute split")
  | some p => .ok (s3SplitStr p)

/-- Last path component, as in result_path.split on slash, index -1
(character-list based so that concrete runs evaluate). -/
def lastComponent (s : String) : String :=
  String.mk ((s.toList.reverse.takeWhile (fun c => c != '/')).reverse)

/-- Modelled from the spec: rename_file_with_uuid from autogluon.cloud.utils
(not under src); produces a fresh file name by appending a unique id, used to
avoid overwriting an existing local result file. -/
def rename_file_with_uuid (uuid file_name : String) : String :=
  file_name ++ "_" ++ uuid

/-- Modelled from the spec: the accept-type allow-list VALID_ACCEPT from
autogluon.cloud.utils.constants (not under src). -/
def VALID_ACCEPT : List String :=
  ["application/x-parquet", "text/csv", "application/json"]

/-- Modelled from the spec: upload_data of the object-storage collaborator
returns the remote URI of the uploaded object. -/
def upload_data (bucket keyPref localPath : String) : String :=
  "s3://" ++ bucket ++ "/" ++ keyPref ++ "/" ++ lastComponent localPath

/-- Data arguments to fit/predict: an in-memory pandas DataFrame (abstracted
to its memory footprint in bytes) or a path string (local path or s3 URI). -/
inductive TabularData
  | dataframe (mem_bytes : Nat)
  | path (p : String)
deriving DecidableEq, Repr

/-- Remote side effects of a fit call that the claims observe: bucket setup,
the local config document write, the three kinds of artifact upload, and the
training-job submission. -/
inductive FitEvent
  | setupBucket (bucket : String)
  | writeLocalConfig
  | uploadTrain
  | uploadTune
  | uploadConfig
  | submitTrainingJob (job_name : String)
deriving DecidableEq, Repr

/-- Assertion messages of cloud_predictor.py (apostrophes and backticks of the
original messages dropped). -/
def msgAlreadyFit : String :=
  "Predictor is already fit! To fit additional models, create a new CloudPredictor"

def msgEndpointAttached : String :=
  "There is an endpoint already attached. Either detach it with detach or clean it up with cleanup_deployment"

def msgNoCloudModel : String := "No cloud trained model found."

def msgTarball : String := "Please provide a tarball containing the model"

def msgValidPath : String := "Please provide a valid path to the model tarball."

def msgNeedDeploy : String := "Please call deploy() to deploy an endpoint first."

def msgInvalidAccept : String := "Invalid accept type."

def msgNoBatchJob : String := "There is no batch transform job."

def msgNoMatchingJob (jn : String) : String :=
  "Could not find the batch transform job that matches name " ++ jn

def msgNoPredictResults : String := "No predict results found."

def msgEndpointArgument : String :=
  "Please provide either an endpoint name or an endpoint of type AutoGluonRealtimePredictor"

/-- is_fit property: delegates to the completed flag of the fit job. -/
def CloudPredictor.is_fit (p : CloudPredictor) : Bool :=
  p.fit_job.completed

/-- endpoint_name property: the name of the attached endpoint, if any. -/
def CloudPredictor.get_endpoint_name (p : CloudPredictor) : Option String :=
  p.endpoint.map (fun e => e.endpoint_name)

/-- _prepare_data: converts in-memory/local data to a wire-format file named
filename under the local utils scratch directory (csv, the current default). -/
def CloudPredictor.prepare_data (p : CloudPredictor) (filename : String) : String :=
  p.local_output_path ++ "/utils/" ++ filename ++ ".csv"

/-- _upload_fit_artifact: stage train data (uploaded unless it is already an
s3 URI), then tune data likewise when present, then the config document, each
into cloud_output_path/utils.  Returns the resolved remote inputs and the
trace of uploads in order. -/
def CloudPredictor.upload_fit_artifact (p : CloudPredictor) (train_data : TabularData)
    (tune_data : Option TabularData) (config_path : String) :
    (String × Option String × String) × List FitEvent :=
  let parts := s3SplitStr p.cloud_output_path
  let utilKey := parts.2 ++ "/utils"
  let stageTrain : String × List FitEvent :=
    match train_data with
    | .dataframe _ =>
        (upload_data parts.1 utilKey (p.prepare_data "train"), [FitEvent.uploadTrain])
    | .path q =>
        if is_s3_url q then (q, [])
        else (upload_data parts.1 utilKey (p.prepare_data "train"), [FitEvent.uploadTrain])
  let stageTune : Option String × List FitEvent :=
    match tune_data with
    | none => (none, [])
    | some (.dataframe _) =>
        (some (upload_data parts.1 utilKey (p.prepare_data "tune")), [FitEvent.uploadTune])
    | some (.path q) =>
        if is_s3_url q then (some q, [])
        else (some (upload_data parts.1 utilKey (p.prepare_data "tune")), [FitEvent.uploadTune])
  let config_input := upload_data parts.1 utilKey config_path
  ((stageTrain.1, stageTune.1, config_input),
    stageTrain.2 ++ stageTune.2 ++ [FitEvent.uploadConfig])

/-- fit: rejects (assert) when the fit job is already completed; otherwise
sets up the bucket, writes the config document, uploads the fit artifacts,
and submits the training job.  gen_name stands for the generated unique job
name used when job_name is not truthy; remote_outcome is the terminal status
the external service reaches when the call blocks (wait); a non-blocking call
leaves the job InProgress.  Framework-version selection and the passthrough
estimator kwargs are handled by the external collaborator and not modelled. -/
def CloudPredictor.fit (p : CloudPredictor) (train_data : TabularData)
    (tune_data : Option TabularData) (job_name : Option String) (gen_name : String)
    (wait : Bool) (remote_outcome : JobStatus) :
    Except CloudError (CloudPredictor × List FitEvent) :=
  if p.fit_job.completed then
    .error (.assertionError msgAlreadyFit)
  else
    let jn := if truthyStr job_name then job_name.getD gen_name else gen_name
    let output_path := p.cloud_output_path ++ "/output"
    let parts := s3SplitStr p.cloud_output_path
    let config_path := p.local_output_path ++ "/utils/config.yaml"
    let staged := p.upload_fit_artifact train_data tune_data config_path
    let newJob : SageMakerJob :=
      { job_name := some jn,
        status := if wait then remote_outcome else JobStatus.InProgress,
        out_path := some (output_path ++ "/" ++ jn ++ "/output/model.tar.gz"),
        session := p.sagemaker_session }
    .ok ({ p with fit_job := newJob },
      [FitEvent.setupBucket parts.1, FitEvent.writeLocalConfig]
        ++ staged.2 ++ [FitEvent.submitTrainingJob jn])

/-- get_fit_job_status: pure delegate to the fit job handle. -/
def CloudPredictor.get_fit_job_status (p : CloudPredictor) : String :=
  p.fit_job.get_job_status

/-- _download_predictor: parse the remote output location (an unhandled error
when it is None), download the tarball next to save_path and unpack it into
save_path/AutogluonModels. -/
def CloudPredictor.download_predictor (_p : CloudPredictor) (path : Option String)
    (save_path : String) : Except CloudError String :=
  match s3_path_to_bucket_key path with
  | .error e => .error e
  | .ok _ => .ok (save_path ++ "/AutogluonModels")

/-- download_trained_predictor: reads the fit-job output location and hands it
to _download_predictor; note the source performs no completed-fit assertion
here. -/
def CloudPredictor.download_trained_predictor (p : CloudPredictor)
    (save_path : Option String) : Except CloudError String :=
  let path := p.fit_job.get_output_path
  let sp := if truthyStr save_path then save_path.getD "" else p.local_output_path
  p.download_predictor path sp

/-- _upload_predictor: an s3 URI passes through; a local path must be an
existing tar archive, otherwise a ValueError is raised.  isfile and istar are
the filesystem oracles for os.path.isfile and tarfile.is_tarfile. -/
def CloudPredictor.upload_predictor (p : CloudPredictor) (predictor_path : String)
    (keyPref : String) (isfile istar : String → Bool) : Except CloudError String :=
  if is_s3_url predictor_path then .ok predictor_path
  else if isfile predictor_path then
    if istar predictor_path then
      let parts := s3SplitStr p.cloud_output_path
      .ok (upload_data parts.1 keyPref predictor_path)
    else .error (.valueError msgTarball)
  else .error (.valueError msgValidPath)

/-- Format an optional string the way a Python f-string formats the value
(None prints as the text None), used for the endpoint key path in deploy. -/
def fstrOpt : Option String → String
  | none => "None"
  | some s => s

/-- deploy: asserts no endpoint is currently attached; resolves the predictor
artifact (defaulting to the fit-job output, asserting one exists), uploads it,
and stores the resulting endpoint handle under the chosen or generated name. -/
def CloudPredictor.deploy (p : CloudPredictor) (predictor_path : Option String)
    (endpoint_name : Option String) (gen_name : String) (isfile istar : String → Bool) :
    Except CloudError CloudPredictor :=
  if p.endpoint.isSome then .error (.assertionError msgEndpointAttached)
  else
    let resolved : Except CloudError String :=
      if truthyStr predictor_path then .ok (predictor_path.getD "")
      else if truthyStr p.fit_job.get_output_path then .ok (p.fit_job.get_output_path.getD "")
      else .error (.assertionError msgNoCloudModel)
    match resolved with
    | .error e => .error e
    | .ok ppath =>
      let keyPref := "endpoints/" ++ fstrOpt endpoint_name ++ "/predictor"
      match p.upload_predictor ppath keyPref isfile istar with
      | .error e => .error e
      | .ok _ =>
        let ename := if truthyStr endpoint_name then endpoint_name.getD "" else gen_name
        let ep : AutoGluonRealtimePredictor :=
          { endpoint_name := ename, session := p.sagemaker_session }
        .ok { p with endpoint := some ep }

/-- Argument to attach_endpoint: an endpoint name, an endpoint handle, or
anything else (which is rejected). -/
inductive EndpointArg
  | name (s : String)
  | predictor (e : AutoGluonRealtimePredictor)
  | other
deriving DecidableEq, Repr

/-- attach_endpoint: asserts no endpoint is attached; a string argument
constructs a fresh handle on the current session, a handle is stored as-is,
anything else raises ValueError. -/
def CloudPredictor.attach_endpoint (p : CloudPredictor) (endpoint : EndpointArg) :
    Except CloudError CloudPredictor :=
  if p.endpoint.isSome then .error (.assertionError msgEndpointAttached)
  else
    match endpoint with
    | .name s =>
        .ok { p with endpoint := some { endpoint_name := s, session := p.sagemaker_session } }
    | .predictor e => .ok { p with endpoint := some e }
    | .other => .error (.valueError msgEndpointArgument)

/-- detach_endpoint: asserts an endpoint is attached, clears it and returns
it (the bare assert carries no message). -/
def CloudPredictor.detach_endpoint (p : CloudPredictor) :
    Except CloudError (AutoGluonRealtimePredictor × CloudPredictor) :=
  match p.endpoint with
  | none => .error (.assertionError "")
  | some e => .ok (e, { p with endpoint := none })

/-- Warnings predict_real_time can emit without failing. -/
inductive RTWarning
  | largeData
deriving DecidableEq, Repr

/-- Observable outcome of a successful predict_real_time call: the warnings
emitted, plus the endpoint, accept header and payload the request was
forwarded with. -/
structure RTResult where
  warnings : List RTWarning
  endpoint_name : String
  accept : String
  payload_bytes : Nat
deriving DecidableEq, Repr

/-- Test-data argument to predict_real_time: a DataFrame (abstracted to its
memory footprint), a path string (loaded by load_pd into a DataFrame of the
given footprint), or any other object. -/
inductive TestData
  | dataframe (mem_bytes : Nat)
  | path (p : String) (loaded_bytes : Nat)
  | other
deriving DecidableEq, Repr

/-- predict_real_time: asserts a live endpoint, asserts the accept type is in
the allow-list, loads a path argument into a frame, computes the payload
footprint (an unhandled attribute error on an object without memory_usage),
warns above the 5e6-byte threshold without failing, and forwards the request
to the endpoint. -/
def CloudPredictor.predict_real_time (p : CloudPredictor) (test_data : TestData)
    (accept : String) : Except CloudError RTResult :=
  match p.endpoint with
  | none => .error (.assertionError msgNeedDeploy)
  | some ep =>
    if accept ∈ VALID_ACCEPT then
      let loaded : TestData :=
        match test_data with
        | .path _ n => .dataframe n
        | d => d
      match loaded with
      | .dataframe n =>
          let warns := if n > 5000000 then [RTWarning.largeData] else []
          .ok { warnings := warns, endpoint_name := ep.endpoint_name,
                accept := accept, payload_bytes := n }
      | _ => .error (.attributeError "object has no attribute memory_usage")
    else .error (.assertionError msgInvalidAccept)

/-- predict: batch path; resolves the predictor artifact (defaulting to the
fit output, asserting one exists), uploads artifact and data, submits a
batch-transform job under the chosen or generated name, and registers the job. -/
def CloudPredictor.predict (p : CloudPredictor) (test_data : TabularData)
    (predictor_path : Option String) (job_name : Option String) (gen_name : String)
    (timestamp : String) (isfile istar : String → Bool) (wait : Bool)
    (remote_outcome : JobStatus) : Except CloudError CloudPredictor :=
  let resolved : Except CloudError String :=
    if truthyStr predictor_path then .ok (predictor_path.getD "")
    else if truthyStr p.fit_job.get_output_path then .ok (p.fit_job.get_output_path.getD "")
    else .error (.assertionError msgNoCloudModel)
  match resolved with
  | .error e => .error e
  | .ok ppath =>
    let output_path := p.cloud_output_path ++ "/batch_transform/" ++ timestamp
    let parts := s3SplitStr output_path
    match p.upload_predictor ppath (parts.2 ++ "/predictor") isfile istar with
    | .error e => .error e
    | .ok _ =>
      let jn := if truthyStr job_name then job_name.getD gen_name else gen_name
      let _test_input : String :=
        match test_data with
        | .dataframe _ => upload_data parts.1 (parts.2 ++ "/data") (p.prepare_data "test")
        | .path q =>
            if is_s3_url q then q
            else upload_data parts.1 (parts.2 ++ "/data") (p.prepare_data "test")
      let job : SageMakerJob :=
        { job_name := some jn,
          status := if wait then remote_outcome else JobStatus.InProgress,
          out_path := some (output_path ++ "/results/" ++ jn ++ ".out"),
          session := p.sagemaker_session }
      .ok { p with batch_transform_jobs := registryPut p.batch_transform_jobs jn job }

/-- Resolution of an optional save_path argument against local_output_path,
as written at the top of download_predict_results. -/
def CloudPredictor.resolveSavePath (p : CloudPredictor) (save_path : Option String) : String :=
  if truthyStr save_path then save_path.getD "" else p.local_output_path

/-- Observable outcome of download_predict_results: which job was resolved,
the file name finally written, and the full local path written to. -/
structure PredictResultsDownload where
  job_name : String
  file_name : String
  results_save_path : String
deriving DecidableEq, Repr

/-- download_predict_results: resolve a falsy job name to the most recent
registry entry, assert one exists, assert the name matches a registered job,
assert the job has an output location, and download the result file under
save_path/batch_transform/job_name, renaming with a unique id when the target
file already exists. -/
def CloudPredictor.download_predict_results (p : CloudPredictor)
    (job_name : Option String) (save_path : Option String) (isfile : String → Bool)
    (uuid : String) : Except CloudError PredictResultsDownload :=
  let jn? := if truthyStr job_name then job_name else registryLast p.batch_transform_jobs
  match jn? with
  | none => .error (.assertionError msgNoBatchJob)
  | some jn =>
    match registryGet p.batch_transform_jobs (some jn) with
    | none => .error (.assertionError (msgNoMatchingJob jn))
    | some job =>
      match job.get_output_path with
      | none => .error (.assertionError msgNoPredictResults)
      | some result_path =>
        let file_name := lastComponent result_path
        let dir := p.resolveSavePath save_path ++ "/batch_transform/" ++ jn
        let final_name :=
          if isfile (dir ++ "/" ++ file_name) then rename_file_with_uuid uuid file_name
          else file_name
        .ok { job_name := jn, file_name := final_name,
              results_save_path := dir ++ "/" ++ final_name }

/-- get_batch_transform_job_status: resolve a falsy job name to the most
recent registry entry, then report the job status, or NotCreated when the
lookup finds nothing. -/
def CloudPredictor.get_batch_transform_job_status (p : CloudPredictor)
    (job_name : Option String) : String :=
  let jn? := if truthyStr job_name then job_name else registryLast p.batch_transform_jobs
  match registryGet p.batch_transform_jobs jn? with
  | some job => job.get_job_status
  | none => "NotCreated"

/-- cleanup_deployment: delete the remote model and the endpoint, then detach;
asserts an endpoint is attached. -/
def CloudPredictor.cleanup_deployment (p : CloudPredictor) :
    Except CloudError CloudPredictor :=
  match p.endpoint with
  | none => .error (.assertionError "There is no endpoint deployed yet")
  | some _ => .ok { p with endpoint := none }

/-- Modelled from the spec: the serialized snapshot excludes external-session
references; a pickled job handle drops its session reference. -/
def pickleJob (j : SageMakerJob) : SageMakerJob :=
  { j with session := none }

/-- Modelled from the spec: pickling the orchestrator state value (the jobs
lose their session references; the other fields round-trip unchanged). -/
def pickleOf (p : CloudPredictor) : CloudPredictor :=
  { p with fit_job := pickleJob p.fit_job,
           batch_transform_jobs :=
             p.batch_transform_jobs.map (fun kv => (kv.1, pickleJob kv.2)) }

/-- save: null out the sagemaker session and region, stash an attached
endpoint into the _endpoint_saved marker and null the endpoint, pickle self,
then restore session, region and endpoint and clear the marker.  Returns the
written snapshot together with the post-call in-memory state. -/
def CloudPredictor.save (p : CloudPredictor) : CloudPredictor × CloudPredictor :=
  let nulled : CloudPredictor := { p with sagemaker_session := none, region := none }
  match p.endpoint with
  | some e =>
    let toPickle : CloudPredictor :=
      { nulled with endpoint_saved := some e.endpoint_name, endpoint := none }
    let post : CloudPredictor :=
      { toPickle with sagemaker_session := p.sagemaker_session, region := p.region,
                      endpoint := some e, endpoint_saved := none }
    (pickleOf toPickle, post)
  | none =>
    let post : CloudPredictor :=
      { nulled with sagemaker_session := p.sagemaker_session, region := p.region }
    (pickleOf nulled, post)

/-- _load_jobs: re-point every job handle at the current sagemaker session. -/
def CloudPredictor.load_jobs (p : CloudPredictor) : CloudPredictor :=
  { p with fit_job := { p.fit_job with session := p.sagemaker_session },
           batch_transform_jobs :=
             p.batch_transform_jobs.map
               (fun kv => (kv.1, { kv.2 with session := p.sagemaker_session })) }

/-- load: rebuild a fresh sagemaker session (the opaque token fresh with its
region), re-point the job handles at it, and when a truthy _endpoint_saved
marker is present re-attach the endpoint by name and clear the marker. -/
def CloudPredictor.load (snapshot : CloudPredictor) (fresh : Nat) (freg : String) :
    Except CloudError CloudPredictor :=
  let p1 : CloudPredictor :=
    { snapshot with sagemaker_session := some fresh, region := some freg }
  let p2 := p1.load_jobs
  if truthyStr p2.endpoint_saved then
    match p2.attach_endpoint (EndpointArg.name (p2.endpoint_saved.getD "")) with
    | .error e => .error e
    | .ok p3 => .ok { p3 with endpoint_saved := none }
  else .ok p2

/-- The state a snapshot reload produces before any endpoint re-attachment:
sessions re-pointed at the fresh session token and its region (a description
of the combined effect of load on a saved snapshot, used to state the
round-trip theorem). -/
def reloaded (p : CloudPredictor) (fresh : Nat) (freg : String) : CloudPredictor :=
  { p with
    sagemaker_session := some fresh,
    region := some freg,
    fit_job := { p.fit_job with session := some fresh },
    batch_transform_jobs :=
      p.batch_transform_jobs.map (fun kv => (kv.1, { kv.2 with session := some fresh })) }

/-- A job handle sample used by the concrete instances below (fixed session
token 7). -/
def mkJob (name : Option String) (st : JobStatus) (op : Option String) : SageMakerJob :=
  { job_name := name, status := st, out_path := op, session := some 7 }

/-- An orchestrator sample: fixed role, session token 7, local scratch path /l
and cloud prefix s3://b/r, with the varying parts (endpoint, fit job, registry,
saved-endpoint marker) as arguments. -/
def mkPredictor (ep : Option AutoGluonRealtimePredictor) (fj : SageMakerJob)
    (jobs : List (String × SageMakerJob)) (saved : Option String) : CloudPredictor :=
  { role_arn := "arn:aws:iam::0:role/ag", sagemaker_session := some 7,
    local_output_path := "/l", cloud_output_path := "s3://b/r",
    endpoint := ep, region := some "us-east-1",
    fit_job := fj, batch_transform_jobs := jobs, endpoint_saved := saved }

/-- Equality of call outcomes is decidable, so concrete runs of the embedded
operations can be checked by evaluation. -/
instance exceptDecEq {ε α : Type} [DecidableEq ε] [DecidableEq α] :
    DecidableEq (Except ε α) := fun a b =>
  match a, b with
  | .ok x, .ok y =>
      match decEq x y with
      | isTrue h => isTrue (by rw [h])
      | isFalse h => isFalse (by intro hh; cases hh; exact h rfl)
  | .ok _, .error _ => isFalse (by intro h; cases h)
  | .error _, .ok _ => isFalse (by intro h; cases h)
  | .error x, .error y =>
      match decEq x y with
      | isTrue h => isTrue (by rw [h])
      | isFalse h => isFalse (by intro hh; cases hh; exact h rfl)

/-- The completed flag is exactly status Completed. -/
theorem completed_iff (j : SageMakerJob) :
    j.completed = true ↔ j.status = JobStatus.Completed := by
  simp [SageMakerJob.completed]

/-- C1: fit raises its precondition assert exactly when the fit job is already
in the terminal Completed state; after a blocking fit whose remote job reaches
Completed, a second fit call on the same instance raises; after a fit whose
first attempt did not complete, a second call is not rejected. -/
theorem fit_second_call_rejected_iff_completed
    (p : CloudPredictor) (td : TabularData) (tu : Option TabularData)
    (jn : Option String) (gen : String) (wait : Bool) (remote : JobStatus) :
    (p.fit td tu jn gen wait remote = .error (.assertionError msgAlreadyFit)
        ↔ p.fit_job.status = JobStatus.Completed)
    ∧ (∀ p2 ev, p.fit td tu jn gen wait remote = .ok (p2, ev) → wait = true →
        remote = JobStatus.Completed →
        ∀ td2 tu2 jn2 gen2 wait2 remote2,
          p2.fit td2 tu2 jn2 gen2 wait2 remote2 = .error (.assertionError msgAlreadyFit))
    ∧ (∀ p2 ev, p.fit td tu jn gen wait remote = .ok (p2, ev) →
        p2.fit_job.status ≠ JobStatus.Completed →
        ∀ td2 tu2 jn2 gen2 wait2 remote2, ∃ p3 ev3,
          p2.fit td2 tu2 jn2 gen2 wait2 remote2 = .ok (p3, ev3)) := by
  refine ⟨⟨?_, ?_⟩, ?_, ?_⟩
  · intro h
    by_cases hc : p.fit_job.completed
    · exact (completed_iff _).mp hc
    · simp [CloudPredictor.fit, hc] at h
  · intro h
    have hc : p.fit_job.completed = true := (completed_iff _).mpr h
    simp [CloudPredictor.fit, hc]
  · intro p2 ev hok hw hr td2 tu2 jn2 gen2 wait2 remote2
    by_cases hc : p.fit_job.completed
    · simp [CloudPredictor.fit, hc] at hok
    · simp [CloudPredictor.fit, hc] at hok
      have h2 : p2.fit_job.status = JobStatus.Completed := by
        rw [← hok.1]
        simp [hw, hr]
      have hc2 : p2.fit_job.completed = true := (completed_iff _).mpr h2
      simp [CloudPredictor.fit, hc2]
  · intro p2 ev hok hne td2 tu2 jn2 gen2 wait2 remote2
    by_cases hc : p.fit_job.completed
    · simp [CloudPredictor.fit, hc] at hok
    · have hc2 : ¬ p2.fit_job.completed = true := by
        intro hcc
        exact hne ((completed_iff _).mp hcc)
      simp only [CloudPredictor.fit]
      rw [if_neg hc2]
      exact ⟨_, _, rfl⟩

/-- Witness for C1: on a fresh instance a blocking fit that completes returns
ok, and the second fit call on the resulting instance raises the already-fit
assertion. -/
theorem fit_second_call_rejected_iff_completed_witness :
    (mkPredictor none (mkJob (some "fj") JobStatus.NotCreated none) [] none).fit
        (TabularData.dataframe 10) none none "g" true JobStatus.Completed
      = .ok (mkPredictor none (mkJob (some "g") JobStatus.Completed
              (some "s3://b/r/output/g/output/model.tar.gz")) [] none,
            [FitEvent.setupBucket "b", FitEvent.writeLocalConfig, FitEvent.uploadTrain,
             FitEvent.uploadConfig, FitEvent.submitTrainingJob "g"])
    ∧ (mkPredictor none (mkJob (some "g") JobStatus.Completed
          (some "s3://b/r/output/g/output/model.tar.gz")) [] none).fit
        (TabularData.dataframe 10) none none "g" true JobStatus.Completed
      = .error (.assertionError msgAlreadyFit) := by
  have h1 : (mkPredictor none (mkJob (some "fj") JobStatus.NotCreated none) [] none).fit
        (TabularData.dataframe 10) none none "g" true JobStatus.Completed
      = .ok (mkPredictor none (mkJob (some "g") JobStatus.Completed
              (some "s3://b/r/output/g/output/model.tar.gz")) [] none,
            [FitEvent.setupBucket "b", FitEvent.writeLocalConfig, FitEvent.uploadTrain,
             FitEvent.uploadConfig, FitEvent.submitTrainingJob "g"]) := by decide
  refine ⟨h1, ?_⟩
  exact (fit_second_call_rejected_iff_completed
      (mkPredictor none (mkJob (some "fj") JobStatus.NotCreated none) [] none)
      (TabularData.dataframe 10) none none "g" true JobStatus.Completed).2.1
    (mkPredictor none (mkJob (some "g") JobStatus.Completed
        (some "s3://b/r/output/g/output/model.tar.gz")) [] none)
    [FitEvent.setupBucket "b", FitEvent.writeLocalConfig, FitEvent.uploadTrain,
     FitEvent.uploadConfig, FitEvent.submitTrainingJob "g"]
    h1 rfl rfl _ _ _ _ _ _

/-- C2: at most one endpoint per instance: deploy and attach_endpoint both
raise the endpoint-already-attached assert when an endpoint is attached, and
any successful deploy leaves an endpoint attached, so an immediately following
deploy raises. -/
theorem deploy_attach_endpoint_uniqueness
    (p : CloudPredictor) (pp en : Option String) (gen : String)
    (isfile istar : String → Bool) (arg : EndpointArg) :
    (p.endpoint.isSome = true →
        p.deploy pp en gen isfile istar = .error (.assertionError msgEndpointAttached)
      ∧ p.attach_endpoint arg = .error (.assertionError msgEndpointAttached))
    ∧ (∀ p2, p.deploy pp en gen isfile istar = .ok p2 →
        p2.endpoint.isSome = true
      ∧ ∀ pp2 en2 gen2 f2 t2,
          p2.deploy pp2 en2 gen2 f2 t2 = .error (.assertionError msgEndpointAttached)) := by
  constructor
  · intro h
    exact ⟨by simp [CloudPredictor.deploy, h], by simp [CloudPredictor.attach_endpoint, h]⟩
  · intro p2 hok
    by_cases h : p.endpoint.isSome
    · simp [CloudPredictor.deploy, h] at hok
    · simp only [CloudPredictor.deploy, Bool.not_eq_true] at hok h
      rw [if_neg (by simp [h])] at hok
      split at hok
      · cases hok
      · split at hok
        · cases hok
        · injection hok with h3
          subst h3
          refine ⟨by simp, ?_⟩
          intro pp2 en2 gen2 f2 t2
          simp [CloudPredictor.deploy]

/-- Witness for C2: deploying on a fresh instance succeeds; an immediately
following deploy and an attach_endpoint on the result both raise the
endpoint-already-attached assertion. -/
theorem deploy_attach_endpoint_uniqueness_witness :
    (mkPredictor none (mkJob (some "fj") JobStatus.NotCreated none) [] none).deploy
        (some "s3://m/model.tar.gz") (some "ep") "gen" (fun _ => false) (fun _ => false)
      = .ok (mkPredictor (some { endpoint_name := "ep", session := some 7 })
              (mkJob (some "fj") JobStatus.NotCreated none) [] none)
    ∧ (mkPredictor (some { endpoint_name := "ep", session := some 7 })
          (mkJob (some "fj") JobStatus.NotCreated none) [] none).deploy
        (some "s3://m/model.tar.gz") (some "ep") "gen" (fun _ => false) (fun _ => false)
      = .error (.assertionError msgEndpointAttached)
    ∧ (mkPredictor (some { endpoint_name := "ep", session := some 7 })
          (mkJob (some "fj") JobStatus.NotCreated none) [] none).attach_endpoint
        (EndpointArg.name "e2")
      = .error (.assertionError msgEndpointAttached) := by
  have h1 : (mkPredictor none (mkJob (some "fj") JobStatus.NotCreated none) [] none).deploy
        (some "s3://m/model.tar.gz") (some "ep") "gen" (fun _ => false) (fun _ => false)
      = .ok (mkPredictor (some { endpoint_name := "ep", session := some 7 })
              (mkJob (some "fj") JobStatus.NotCreated none) [] none) := by decide
  refine ⟨h1, ?_, ?_⟩
  · exact (((deploy_attach_endpoint_uniqueness
        (mkPredictor none (mkJob (some "fj") JobStatus.NotCreated none) [] none)
        (some "s3://m/model.tar.gz") (some "ep") "gen" (fun _ => false) (fun _ => false)
        (EndpointArg.name "e2")).2
      (mkPredictor (some { endpoint_name := "ep", session := some 7 })
        (mkJob (some "fj") JobStatus.NotCreated none) [] none) h1).2
      (some "s3://m/model.tar.gz") (some "ep") "gen" (fun _ => false) (fun _ => false))
  · exact ((deploy_attach_endpoint_uniqueness
        (mkPredictor (some { endpoint_name := "ep", session := some 7 })
          (mkJob (some "fj") JobStatus.NotCreated none) [] none)
        (some "s3://m/model.tar.gz") (some "ep") "gen" (fun _ => false) (fun _ => false)
        (EndpointArg.name "e2")).1 rfl).2

/-- C3: save-then-load round-trip.  An instance saved with no attached
endpoint loads with endpoint None; one saved with an attached endpoint loads
with a non-None endpoint re-attached by the persisted name (not re-deployed),
and the external-session references (the sagemaker session and the job
sessions) are rebuilt fresh on load. -/
theorem save_load_roundtrip_endpoint (p : CloudPredictor) (fresh : Nat) (freg : String) :
    (p.endpoint = none → p.endpoint_saved = none →
      ∃ q, CloudPredictor.load (p.save).1 fresh freg = .ok q
        ∧ q.endpoint = none ∧ q.sagemaker_session = some fresh)
    ∧ (∀ e, p.endpoint = some e → e.endpoint_name ≠ "" →
      ∃ q, CloudPredictor.load (p.save).1 fresh freg = .ok q
        ∧ q.endpoint = some { endpoint_name := e.endpoint_name, session := some fresh }
        ∧ q.get_endpoint_name = some e.endpoint_name
        ∧ q.sagemaker_session = some fresh
        ∧ q.fit_job.session = some fresh) := by
  constructor
  · intro hE hS
    refine ⟨reloaded p fresh freg, ?_, by simp [reloaded, hE], by simp [reloaded]⟩
    simp [CloudPredictor.save, CloudPredictor.load, CloudPredictor.load_jobs,
      pickleOf, pickleJob, reloaded, hE, hS, truthyStr, Function.comp]
  · intro e hE hname
    refine ⟨{ reloaded p fresh freg with
              endpoint := some { endpoint_name := e.endpoint_name, session := some fresh },
              endpoint_saved := none },
      ?_, by simp, by simp [CloudPredictor.get_endpoint_name], by simp [reloaded],
      by simp [reloaded]⟩
    simp [CloudPredictor.save, CloudPredictor.load, CloudPredictor.load_jobs,
      CloudPredictor.attach_endpoint, pickleOf, pickleJob, reloaded, hE, hname,
      truthyStr, bne_iff_ne, Function.comp]

/-- Witness for C3: a concrete instance without endpoint round-trips to
endpoint None on a fresh session token, and one with endpoint ep round-trips
to a re-attached endpoint of the same name on the fresh session. -/
theorem save_load_roundtrip_endpoint_witness :
    (CloudPredictor.load
        ((mkPredictor none (mkJob (some "fj") JobStatus.Completed (some "s3://b/r/o"))
          [] none).save).1 9 "eu").map (fun q => (q.endpoint, q.sagemaker_session))
      = .ok (none, some 9)
    ∧ (CloudPredictor.load
        ((mkPredictor (some { endpoint_name := "ep", session := some 7 })
          (mkJob (some "fj") JobStatus.Completed (some "s3://b/r/o")) [] none).save).1
        9 "eu").map
        (fun q => (q.endpoint, q.get_endpoint_name, q.sagemaker_session, q.fit_job.session))
      = .ok (some { endpoint_name := "ep", session := some 9 }, some "ep", some 9, some 9) := by
  constructor
  · obtain ⟨q, hq, h2, h3⟩ :=
      (save_load_roundtrip_endpoint
        (mkPredictor none (mkJob (some "fj") JobStatus.Completed (some "s3://b/r/o")) [] none)
        9 "eu").1 rfl rfl
    rw [hq]
    simp [Except.map, h2, h3]
  · obtain ⟨q, hq, h2, h3, h4, h5⟩ :=
      (save_load_roundtrip_endpoint
        (mkPredictor (some { endpoint_name := "ep", session := some 7 })
          (mkJob (some "fj") JobStatus.Completed (some "s3://b/r/o")) [] none)
        9 "eu").2 { endpoint_name := "ep", session := some 7 } rfl (by decide)
    rw [hq]
    simp [Except.map, h2, h3, h4, h5]

/-- Counterexample for C4: on an instance whose fit job is still InProgress,
download_trained_predictor fails, but with the unhandled NoneType attribute
error coming from parsing the missing output location; it is not the
NoTrainedModel precondition assertion (the one deploy and predict raise as
"No cloud trained model found."), because download_trained_predictor performs
no such check. -/
theorem download_trained_predictor_errortype_cex :
    (mkPredictor none (mkJob (some "fj") JobStatus.InProgress none) [] none).download_trained_predictor
        none
      = .error (.attributeError "NoneType object has no attribute split")
    ∧ CloudError.attributeError "NoneType object has no attribute split"
        ≠ CloudError.assertionError msgNoCloudModel := by
  exact ⟨rfl, by decide⟩

/-- C4 (amended): for every instance whose fit job is not in the Completed
state, download_trained_predictor fails closed without downloading anything,
but the failure is the unhandled NoneType error from parsing the missing
output location, not a dedicated NoTrainedModel precondition assertion. -/
theorem download_trained_predictor_fails_unchecked
    (p : CloudPredictor) (sp : Option String)
    (h : p.fit_job.status ≠ JobStatus.Completed) :
    p.download_trained_predictor sp
      = .error (.attributeError "NoneType object has no attribute split") := by
  have hc : ¬ p.fit_job.completed = true := by
    intro hcc
    exact h ((completed_iff _).mp hcc)
  simp [CloudPredictor.download_trained_predictor, CloudPredictor.download_predictor,
    SageMakerJob.get_output_path, hc, s3_path_to_bucket_key]

/-- Witness for the amended C4 at a concrete failed fit job. -/
theorem download_trained_predictor_fails_unchecked_witness :
    (mkPredictor none (mkJob (some "fj") JobStatus.Failed none) [] none).download_trained_predictor
        (some "/tmp/out")
      = .error (.attributeError "NoneType object has no attribute split") :=
  download_trained_predictor_fails_unchecked _ _ (by decide)

/-- C5: with an endpoint attached, predict_real_time raises the invalid-accept
assertion for every accept string outside the allow-list, and never raises it
for accept strings inside the allow-list. -/
theorem predict_real_time_accept_allowlist
    (p : CloudPredictor) (e : AutoGluonRealtimePredictor) (td : TestData) (accept : String)
    (hE : p.endpoint = some e) :
    (accept ∉ VALID_ACCEPT →
      p.predict_real_time td accept = .error (.assertionError msgInvalidAccept))
    ∧ (accept ∈ VALID_ACCEPT →
      p.predict_real_time td accept ≠ .error (.assertionError msgInvalidAccept)) := by
  constructor
  · intro h
    simp [CloudPredictor.predict_real_time, hE, h]
  · intro h
    simp only [CloudPredictor.predict_real_time, hE]
    rw [if_pos h]
    cases td <;> simp [msgInvalidAccept]

/-- Witness for C5: text/html is rejected as an invalid accept type while
text/csv is not, on a concrete instance with an endpoint attached. -/
theorem predict_real_time_accept_allowlist_witness :
    (mkPredictor (some { endpoint_name := "ep", session := some 7 })
        (mkJob (some "fj") JobStatus.Completed none) [] none).predict_real_time
        (TestData.dataframe 100) "text/html"
      = .error (.assertionError msgInvalidAccept)
    ∧ (mkPredictor (some { endpoint_name := "ep", session := some 7 })
        (mkJob (some "fj") JobStatus.Completed none) [] none).predict_real_time
        (TestData.dataframe 100) "text/csv"
      ≠ .error (.assertionError msgInvalidAccept) := by
  constructor
  · exact (predict_real_time_accept_allowlist
        (mkPredictor (some { endpoint_name := "ep", session := some 7 })
          (mkJob (some "fj") JobStatus.Completed none) [] none)
        { endpoint_name := "ep", session := some 7 }
        (TestData.dataframe 100) "text/html" rfl).1 (by decide)
  · exact (predict_real_time_accept_allowlist
        (mkPredictor (some { endpoint_name := "ep", session := some 7 })
          (mkJob (some "fj") JobStatus.Completed none) [] none)
        { endpoint_name := "ep", session := some 7 }
        (TestData.dataframe 100) "text/csv" rfl).2 (by decide)

/-- C6: with an endpoint attached and a valid accept type, an in-memory frame
whose footprint exceeds the 5e6-byte threshold makes predict_real_time emit
the large-data warning and still forward the request to the endpoint,
returning ok rather than raising. -/
theorem predict_real_time_large_payload_warns
    (p : CloudPredictor) (e : AutoGluonRealtimePredictor) (n : Nat) (accept : String)
    (hE : p.endpoint = some e) (hA : accept ∈ VALID_ACCEPT) (hN : 5000000 < n) :
    p.predict_real_time (TestData.dataframe n) accept
      = .ok { warnings := [RTWarning.largeData], endpoint_name := e.endpoint_name,
              accept := accept, payload_bytes := n } := by
  simp only [CloudPredictor.predict_real_time, hE]
  rw [if_pos hA, if_pos hN]

/-- Witness for C6: a 6 MB frame on a live endpoint with accept text/csv
returns ok with the large-data warning. -/
theorem predict_real_time_large_payload_warns_witness :
    (mkPredictor (some { endpoint_name := "ep", session := some 7 })
        (mkJob (some "fj") JobStatus.Completed none) [] none).predict_real_time
        (TestData.dataframe 6000000) "text/csv"
      = .ok { warnings := [RTWarning.largeData], endpoint_name := "ep",
              accept := "text/csv", payload_bytes := 6000000 } :=
  predict_real_time_large_payload_warns
    (mkPredictor (some { endpoint_name := "ep", session := some 7 })
      (mkJob (some "fj") JobStatus.Completed none) [] none)
    { endpoint_name := "ep", session := some 7 }
    6000000 "text/csv" rfl (by decide) (by decide)

/-- Renaming with a unique id always changes the file name (the renamed file
is strictly longer). -/
theorem rename_file_with_uuid_ne (uuid f : String) : rename_file_with_uuid uuid f ≠ f := by
  intro h
  have hl := congrArg String.length h
  simp only [rename_file_with_uuid, String.length_append] at hl
  have h1 : ("_" : String).length = 1 := rfl
  rw [h1] at hl
  omega

/-- C7: download_predict_results with a falsy job name resolves to the most
recently registered batch-transform job; with no job ever submitted it raises
the no-batch-transform-job assertion; and when the local result file already
exists the download is written under a renamed file, never the existing name. -/
theorem download_predict_results_resolution
    (p : CloudPredictor) (sp : Option String) (isfile : String → Bool) (uuid : String) :
    (p.batch_transform_jobs = [] →
      p.download_predict_results none sp isfile uuid = .error (.assertionError msgNoBatchJob))
    ∧ (p.download_predict_results none sp isfile uuid
        = p.download_predict_results (registryLast p.batch_transform_jobs) sp isfile uuid)
    ∧ (∀ jn job rp, jn ≠ "" →
        registryGet p.batch_transform_jobs (some jn) = some job →
        job.get_output_path = some rp →
        isfile (p.resolveSavePath sp ++ "/batch_transform/" ++ jn ++ "/" ++ lastComponent rp)
          = true →
        p.download_predict_results (some jn) sp isfile uuid
          = .ok { job_name := jn,
                  file_name := rename_file_with_uuid uuid (lastComponent rp),
                  results_save_path := p.resolveSavePath sp ++ "/batch_transform/" ++ jn
                    ++ "/" ++ rename_file_with_uuid uuid (lastComponent rp) }
        ∧ rename_file_with_uuid uuid (lastComponent rp) ≠ lastComponent rp) := by
  refine ⟨?_, ?_, ?_⟩
  · intro h
    simp [CloudPredictor.download_predict_results, truthyStr, registryLast, h]
  · simp [CloudPredictor.download_predict_results, truthyStr, ite_self]
  · intro jn job rp hne hG hO hF
    have ht : truthyStr (some jn) = true := by simp [truthyStr, hne]
    simp only [CloudPredictor.download_predict_results, ht, if_pos]
    rw [hG]
    simp only [hO, hF, if_true]
    exact ⟨trivial, rename_file_with_uuid_ne _ _⟩

/-- Witness for C7: with no job ever submitted the call raises the
no-batch-transform-job assertion, and with a completed registered job whose
local result file already exists the downloaded file is written under the
renamed name. -/
theorem download_predict_results_resolution_witness :
    (mkPredictor none (mkJob (some "fj") JobStatus.NotCreated none) [] none).download_predict_results
        none none (fun _ => false) "u"
      = .error (.assertionError msgNoBatchJob)
    ∧ (mkPredictor none (mkJob (some "fj") JobStatus.NotCreated none)
        [("j1", mkJob (some "j1") JobStatus.Completed (some "s3://b/r/res/part.csv"))]
        none).download_predict_results (some "j1") none (fun _ => true) "u"
      = .ok { job_name := "j1", file_name := "part.csv_u",
              results_save_path := "/l/batch_transform/j1/part.csv_u" } := by
  constructor
  · exact (download_predict_results_resolution
      (mkPredictor none (mkJob (some "fj") JobStatus.NotCreated none) [] none)
      none (fun _ => false) "u").1 rfl
  · exact ((download_predict_results_resolution
      (mkPredictor none (mkJob (some "fj") JobStatus.NotCreated none)
        [("j1", mkJob (some "j1") JobStatus.Completed (some "s3://b/r/res/part.csv"))]
        none)
      none (fun _ => true) "u").2.2 "j1"
      (mkJob (some "j1") JobStatus.Completed (some "s3://b/r/res/part.csv"))
      "s3://b/r/res/part.csv" (by decide) (by decide) (by decide) rfl).1

/-- C8: a fit call on a local tabular frame (with an optional local tuning
frame) uploads exactly one artifact per staged dataset plus exactly one
configuration document, and the configuration upload happens strictly before
the training-job submission. -/
theorem fit_upload_counts_and_order
    (p : CloudPredictor) (ntr : Nat) (tune : Option Nat) (jn : Option String)
    (gen : String) (wait : Bool) (remote : JobStatus) (p2 : CloudPredictor)
    (ev : List FitEvent)
    (hok : p.fit (TabularData.dataframe ntr) (tune.map TabularData.dataframe)
        jn gen wait remote = .ok (p2, ev)) :
    ev.count FitEvent.uploadTrain = 1
    ∧ ev.count FitEvent.uploadTune = (if tune.isSome then 1 else 0)
    ∧ ev.count FitEvent.uploadConfig = 1
    ∧ ∃ i, ev.get? i = some FitEvent.uploadConfig
        ∧ ∀ j name, ev.get? j = some (FitEvent.submitTrainingJob name) → i < j := by
  by_cases hc : p.fit_job.completed
  · simp [CloudPredictor.fit, hc] at hok
  · simp [CloudPredictor.fit, CloudPredictor.upload_fit_artifact, hc] at hok
    cases tune with
    | none =>
      simp at hok
      rw [← hok.2]
      refine ⟨by simp [List.count_cons], by simp [List.count_cons], by simp [List.count_cons],
        3, by simp, ?_⟩
      intro j name hj
      rcases j with _ | _ | _ | _ | _ | j
      · simp at hj
      · simp at hj
      · simp at hj
      · simp at hj
      · omega
      · simp at hj
    | some nt =>
      simp at hok
      rw [← hok.2]
      refine ⟨by simp [List.count_cons], by simp [List.count_cons], by simp [List.count_cons],
        4, by simp, ?_⟩
      intro j name hj
      rcases j with _ | _ | _ | _ | _ | _ | j
      · simp at hj
      · simp at hj
      · simp at hj
      · simp at hj
      · simp at hj
      · omega
      · simp at hj

/-- Witness for C8: a concrete fit on a train frame plus tune frame produces
exactly the trace setup, config write, train upload, tune upload, config
upload, job submission, with the config upload before the submission. -/
theorem fit_upload_counts_and_order_witness :
    ([FitEvent.setupBucket "b", FitEvent.writeLocalConfig, FitEvent.uploadTrain,
      FitEvent.uploadTune, FitEvent.uploadConfig,
      FitEvent.submitTrainingJob "g"].count FitEvent.uploadTrain = 1)
    ∧ ([FitEvent.setupBucket "b", FitEvent.writeLocalConfig, FitEvent.uploadTrain,
      FitEvent.uploadTune, FitEvent.uploadConfig,
      FitEvent.submitTrainingJob "g"].count FitEvent.uploadTune = 1)
    ∧ ([FitEvent.setupBucket "b", FitEvent.writeLocalConfig, FitEvent.uploadTrain,
      FitEvent.uploadTune, FitEvent.uploadConfig,
      FitEvent.submitTrainingJob "g"].count FitEvent.uploadConfig = 1)
    ∧ ∃ i, [FitEvent.setupBucket "b", FitEvent.writeLocalConfig, FitEvent.uploadTrain,
      FitEvent.uploadTune, FitEvent.uploadConfig,
      FitEvent.submitTrainingJob "g"].get? i = some FitEvent.uploadConfig
        ∧ ∀ j name, [FitEvent.setupBucket "b", FitEvent.writeLocalConfig,
      FitEvent.uploadTrain, FitEvent.uploadTune, FitEvent.uploadConfig,
      FitEvent.submitTrainingJob "g"].get? j = some (FitEvent.submitTrainingJob name)
          → i < j :=
  fit_upload_counts_and_order
    (mkPredictor none (mkJob (some "fj") JobStatus.NotCreated none) [] none)
    5 (some 6) none "g" true JobStatus.Completed
    (mkPredictor none (mkJob (some "g") JobStatus.Completed
      (some "s3://b/r/output/g/output/model.tar.gz")) [] none)
    [FitEvent.setupBucket "b", FitEvent.writeLocalConfig, FitEvent.uploadTrain,
      FitEvent.uploadTune, FitEvent.uploadConfig, FitEvent.submitTrainingJob "g"]
    (by decide)

/-- C9: save leaves the in-memory instance unchanged except for the internal
saved-endpoint-name marker: the sagemaker session, region and endpoint fields
end the call at their pre-call values, every other field is untouched, and the
marker ends the call as None exactly when an endpoint was attached. -/
theorem save_frame_condition (p : CloudPredictor) :
    (p.save).2
      = { p with endpoint_saved :=
            if p.endpoint.isSome then none else p.endpoint_saved } := by
  cases hE : p.endpoint <;> simp [CloudPredictor.save, hE]

/-- Counterexample for C10: the empty string is a job name with no matching
registry entry, yet on an instance with one registered InProgress job,
get_batch_transform_job_status of the empty string returns that job status
instead of NotCreated, because the falsy name resolves to the most recent job. -/
theorem get_batch_transform_job_status_empty_name_cex :
    (mkPredictor none (mkJob (some "fj") JobStatus.NotCreated none)
        [("j1", mkJob (some "j1") JobStatus.InProgress none)] none).get_batch_transform_job_status
        (some "")
      = "InProgress"
    ∧ registryGet
        (mkPredictor none (mkJob (some "fj") JobStatus.NotCreated none)
          [("j1", mkJob (some "j1") JobStatus.InProgress none)] none).batch_transform_jobs
        (some "") = none
    ∧ ("InProgress" : String) ≠ "NotCreated" := by
  exact ⟨rfl, rfl, by decide⟩

/-- C10 (amended): get_batch_transform_job_status returns NotCreated (without
raising) for every non-empty job name with no matching registry entry, and for
job_name None whenever no batch-transform job was ever registered; a falsy
name (None or the empty string) is first resolved to the most recent job. -/
theorem get_batch_transform_job_status_notcreated
    (p : CloudPredictor) (s : String) :
    (s ≠ "" → registryGet p.batch_transform_jobs (some s) = none →
      p.get_batch_transform_job_status (some s) = "NotCreated")
    ∧ (p.batch_transform_jobs = [] →
      ∀ jn, p.get_batch_transform_job_status jn = "NotCreated") := by
  constructor
  · intro hne hG
    have ht : truthyStr (some s) = true := by simp [truthyStr, hne]
    simp [CloudPredictor.get_batch_transform_job_status, ht, hG]
  · intro hE jn
    cases jn with
    | none =>
      simp [CloudPredictor.get_batch_transform_job_status, truthyStr, registryLast,
        registryGet, hE]
    | some t =>
      by_cases ht : truthyStr (some t) = true
      · simp [CloudPredictor.get_batch_transform_job_status, ht, registryGet, hE]
      · simp [CloudPredictor.get_batch_transform_job_status, ht, registryLast,
          registryGet, hE]

/-- Witness for the amended C10: an unknown non-empty name on a populated
registry and an arbitrary name on an empty registry both report NotCreated. -/
theorem get_batch_transform_job_status_notcreated_witness :
    (mkPredictor none (mkJob (some "fj") JobStatus.NotCreated none)
        [("j1", mkJob (some "j1") JobStatus.InProgress none)] none).get_batch_transform_job_status
        (some "zz")
      = "NotCreated"
    ∧ (mkPredictor none (mkJob (some "fj") JobStatus.NotCreated none)
        [] none).get_batch_transform_job_status none
      = "NotCreated" := by
  constructor
  · exact (get_batch_transform_job_status_notcreated
      (mkPredictor none (mkJob (some "fj") JobStatus.NotCreated none)
        [("j1", mkJob (some "j1") JobStatus.InProgress none)] none)
      "zz").1 (by decide) (by decide)
  · exact (get_batch_transform_job_status_notcreated
      (mkPredictor none (mkJob (some "fj") JobStatus.NotCreated none) [] none)
      "zz").2 rfl none
